import Mathlib

/-!
Shallow embedding of the core of the multi-tenant alertmanager
(searchlight/alertmanager): the receiver-integration layer (retry
classification, truncation, the latched template renderer, URL redaction,
and the per-provider Notify control flow) and the multi-tenant control
loop (setConfig reconciliation, the poll watermark).

Strings are modelled as Lean strings; rune slices as lists of characters;
HTTP status codes as naturals; Go errors as an inductive that records
whether the error value carries a URL (as a Go net/url.Error does).
External leaf operations (template execution, JSON encoding, HTTP client
construction, the transport) are abstracted as oracles passed in an
environment record, while every branch and the order of effects follows
the Go source.
-/

namespace AM

/-! ## Shared helpers of the notify package (notifier.go) -/

/-- Rune-based truncation, from the source:
if the rune count is at most n, return the string unchanged with flag
false; if n is at most 3, keep the first n runes; otherwise keep the
first n-3 runes and append three dots.  Runes are modelled as a list of
characters. -/
def truncate (r : List Char) (n : Nat) : List Char × Bool :=
  if r.length ≤ n then (r, false)
  else if n ≤ 3 then (r.take n, true)
  else (r.take (n - 3) ++ ['.', '.', '.'], true)

/-- String-level wrapper mirroring the Go signature: the input is first
converted to its rune slice (never bytes), truncated, and rebuilt. -/
def truncateStr (s : String) (n : Nat) : String × Bool :=
  let (r, b) := truncate s.toList n
  (String.mk r, b)

/-- Go error values as the notify layer distinguishes them: a url.Error
carries the URL of the failed request; any other error is opaque text. -/
inductive GoErr where
  | urlError (url : String) (msg : String)
  | simple (msg : String)
deriving Repr, DecidableEq

/-- Redaction, from the source: when the error is a url.Error its URL
field is overwritten with the literal redaction marker; any other error
is returned unchanged. -/
def redactURL : GoErr → GoErr
  | .urlError _ msg => .urlError "<redacted>" msg
  | e => e

/-- Template execution oracle: the rendered output together with an
optional error, mirroring ExecuteTextString / ExecuteHTMLString which
return both a string and an error value. -/
def TmplExec := String → String × Option String

/-- One call of the closure returned by tmplText: if the shared error
cell is already set the call returns the empty string without executing
the template; otherwise the template runs and its error (if any) is
latched into the cell. -/
def tmplText (exec : TmplExec) (errCell : Option String) (nm : String) :
    String × Option String :=
  match errCell with
  | some e => ("", some e)
  | none => exec nm

/-- One call of the closure returned by tmplHTML; the body is identical
to tmplText except that the HTML executor runs. -/
def tmplHTML (exec : TmplExec) (errCell : Option String) (nm : String) :
    String × Option String :=
  match errCell with
  | some e => ("", some e)
  | none => exec nm

/-- A sequence of latched render calls sharing one error cell, threading
the cell through in call order and collecting every output. -/
def renderSeq (exec : TmplExec) : Option String → List String → List String × Option String
  | cell, [] => ([], cell)
  | cell, nm :: rest =>
    let (s, cell1) := tmplText exec cell nm
    let (outs, cellF) := renderSeq exec cell1 rest
    (s :: outs, cellF)

/-! ## Retry classifiers (one per provider, from the source) -/

/-- Webhook: 2xx success, 5xx recoverable, anything else fatal. -/
def webhookRetry (s : Nat) : Bool × Option String :=
  if s / 100 ≠ 2 then (s / 100 == 5, some ("unexpected status code " ++ toString s))
  else (false, none)

/-- PagerDuty v1: 403 and 5xx recoverable, 2xx success, else fatal.
The body-derived message of a 400 response is abstracted to its text. -/
def pagerDutyRetryV1 (s : Nat) : Bool × Option String :=
  if s / 100 ≠ 2 then (s == 403 || s / 100 == 5, some ("unexpected status code: " ++ toString s))
  else (false, none)

/-- PagerDuty v2: 429 and 5xx recoverable, 2xx success, else fatal. -/
def pagerDutyRetryV2 (s : Nat) : Bool × Option String :=
  if s / 100 ≠ 2 then (s == 429 || s / 100 == 5, some ("unexpected status code: " ++ toString s))
  else (false, none)

/-- Slack: only 5xx recoverable, 2xx success. -/
def slackRetry (s : Nat) : Bool × Option String :=
  if s / 100 ≠ 2 then (s / 100 == 5, some ("unexpected status code " ++ toString s))
  else (false, none)

/-- Hipchat: 429 and 5xx recoverable, 2xx success. -/
def hipchatRetry (s : Nat) : Bool × Option String :=
  if s / 100 ≠ 2 then (s == 429 || s / 100 == 5, some ("unexpected status code " ++ toString s))
  else (false, none)

/-- OpsGenie: 429 and 5xx recoverable, 2xx success, written in the
source as a three-way if chain. -/
def opsGenieRetry (s : Nat) : Bool × Option String :=
  if s / 100 == 5 || s == 429 then (true, some ("unexpected status code " ++ toString s))
  else if s / 100 ≠ 2 then (false, some ("unexpected status code " ++ toString s))
  else (false, none)

/-- VictorOps: only 5xx recoverable, three-way if chain. -/
def victorOpsRetry (s : Nat) : Bool × Option String :=
  if s / 100 == 5 then (true, some ("unexpected status code " ++ toString s))
  else if s / 100 ≠ 2 then (false, some ("unexpected status code " ++ toString s))
  else (false, none)

/-- Pushover: only 5xx recoverable, three-way if chain. -/
def pushoverRetry (s : Nat) : Bool × Option String :=
  if s / 100 == 5 then (true, some ("unexpected status code " ++ toString s))
  else if s / 100 ≠ 2 then (false, some ("unexpected status code " ++ toString s))
  else (false, none)

/-! ## Per-provider Notify control flow

The context carries the optional group key; the environment abstracts the
leaf operations every Notify performs (template execution, JSON encoding,
HTTP client construction, and the single transport round trip).  A result
records how many HTTP requests were performed, the retry flag, and the
returned error. -/

/-- Notification context: the group key as stored on the context, absent
when the dispatcher did not set it. -/
structure GroupCtx where
  groupKey : Option String
deriving Repr, DecidableEq

/-- Environment of oracles for one Notify invocation. -/
structure NotifyEnv where
  /-- outcome of ExecuteTextString for a given template body -/
  execText : TmplExec
  /-- outcome of ExecuteHTMLString for a given template body -/
  execHTML : TmplExec
  /-- whether encoding the message body (JSON or query string) succeeds -/
  encodeOk : Bool
  /-- whether commoncfg.NewClientFromConfig succeeds -/
  clientOk : Bool
  /-- result of the transport round trip: an error or an HTTP status -/
  post : Except GoErr Nat

/-- Outcome of one Notify invocation. -/
structure NotifyResult where
  /-- number of HTTP requests actually issued to the provider -/
  httpCalls : Nat
  retry : Bool
  err : Option GoErr
deriving Repr, DecidableEq

/-- Lift a classifier outcome into a notify result after one request. -/
def afterPost (cls : Nat → Bool × Option String) (status : Nat) : NotifyResult :=
  let (r, e) := cls status
  ⟨1, r, e.map GoErr.simple⟩

namespace Webhook

/-- Webhook.Notify: a missing group key is only logged (level.Error) and
the send proceeds with the empty key; the message is encoded, the
per-receiver client built, the request posted, and the response passed to
the webhook classifier.  A transport error is surfaced unredacted with
the retry flag set. -/
def notify (ctx : GroupCtx) (env : NotifyEnv) : NotifyResult :=
  let _groupKey := ctx.groupKey.getD ""
  if !env.encodeOk then ⟨0, false, some (.simple "encode error")⟩
  else if !env.clientOk then ⟨0, false, some (.simple "client error")⟩
  else
    match env.post with
    | .error e => ⟨1, true, some e⟩
    | .ok status => afterPost webhookRetry status

end Webhook

namespace Slack

/-- Templated fields of a Slack receiver in the order the source renders
them: the attachment literal, then the per-field and per-action loops,
then the outer request literal. -/
structure Conf where
  title : String
  titleLink : String
  pretext : String
  text : String
  fallback : String
  callbackID : String
  imageURL : String
  thumbURL : String
  footer : String
  color : String
  fieldTitlesValues : List String
  actionFields : List String
  channel : String
  username : String
  iconEmoji : String
  iconURL : String

/-- Render order of Slack.Notify, flattened from the attachment literal,
the fields loop, the actions loop and the request literal. -/
def renderOrder (c : Conf) : List String :=
  [c.title, c.titleLink, c.pretext, c.text, c.fallback, c.callbackID,
   c.imageURL, c.thumbURL, c.footer, c.color]
  ++ c.fieldTitlesValues ++ c.actionFields
  ++ [c.channel, c.username, c.iconEmoji, c.iconURL]

/-- Slack.Notify: every field is rendered through one shared latched
error cell; the cell is checked exactly once after the request literal
is built, and a latched error returns (false, err) with no request.
A transport error is redacted before being surfaced. -/
def notify (c : Conf) (env : NotifyEnv) : NotifyResult :=
  let (_outs, cell) := renderSeq env.execText none (renderOrder c)
  match cell with
  | some e => ⟨0, false, some (.simple e)⟩
  | none =>
    if !env.encodeOk then ⟨0, false, some (.simple "encode error")⟩
    else if !env.clientOk then ⟨0, false, some (.simple "client error")⟩
    else
      match env.post with
      | .error e => ⟨1, true, some (redactURL e)⟩
      | .ok status => afterPost slackRetry status

end Slack

namespace Hipchat

/-- Templated fields of a Hipchat receiver. -/
structure Conf where
  roomID : String
  message : String
  from_ : String
  color : String
  messageFormatHTML : Bool

/-- Hipchat.Notify: the room id, the message (through the HTML renderer
when message_format is html, through the text renderer otherwise), the
sender and the color share one latched error cell; a latched error is
fatal; a transport error is redacted. -/
def notify (c : Conf) (env : NotifyEnv) : NotifyResult :=
  let (_room, cell1) := tmplText env.execText none c.roomID
  let (_msg, cell2) :=
    if c.messageFormatHTML then tmplHTML env.execHTML cell1 c.message
    else tmplText env.execText cell1 c.message
  let (_from, cell3) := tmplText env.execText cell2 c.from_
  let (_color, cell4) := tmplText env.execText cell3 c.color
  match cell4 with
  | some e => ⟨0, false, some (.simple e)⟩
  | none =>
    if !env.encodeOk then ⟨0, false, some (.simple "encode error")⟩
    else if !env.clientOk then ⟨0, false, some (.simple "client error")⟩
    else
      match env.post with
      | .error e => ⟨1, true, some (redactURL e)⟩
      | .ok status => afterPost hipchatRetry status

end Hipchat

namespace PagerDuty

/-- Templated fields of a PagerDuty receiver; apiV1 is selected at
construction when service_key is non-empty. -/
structure Conf where
  serviceKey : String
  routingKey : String
  description : String
  client : String
  clientURL : String
  severity : String
  class_ : String
  component : String
  group : String
  imageLinkFields : List String
  /-- bodies of the details map, rendered directly (not latched) -/
  details : List String

/-- Whether the v1 endpoint is used, from NewPagerDuty. -/
def apiV1 (c : Conf) : Bool := c.serviceKey ≠ ""

/-- notifyV1: service key and description (plus client fields on
trigger) through one latched cell; a latched error is fatal; encode;
post; transport error surfaced unredacted with retry set. -/
def notifyV1 (c : Conf) (env : NotifyEnv) (trigger : Bool) : NotifyResult :=
  let names := [c.serviceKey, c.description] ++ (if trigger then [c.client, c.clientURL] else [])
  let (_outs, cell) := renderSeq env.execText none names
  match cell with
  | some e => ⟨0, false, some (.simple ("failed to template PagerDuty v1 message: " ++ e))⟩
  | none =>
    if !env.encodeOk then ⟨0, false, some (.simple "encode error")⟩
    else
      match env.post with
      | .error e => ⟨1, true, some e⟩
      | .ok status => afterPost pagerDutyRetryV1 status

/-- notifyV2: the summary (truncated to 1024 runes keeping the first
1018 plus a bracketed ellipsis) and the remaining fields through one
latched cell; a latched error is fatal; transport error unredacted. -/
def notifyV2 (c : Conf) (env : NotifyEnv) : NotifyResult :=
  let severity := if c.severity = "" then "error" else c.severity
  let (summary0, cell0) := tmplText env.execText none c.description
  let summaryRunes := summary0.toList
  let _summary :=
    if summaryRunes.length > 1024 then String.mk (summaryRunes.take 1018) ++ " [...]"
    else summary0
  let names := [c.client, c.clientURL, c.routingKey, c.client, severity,
                c.class_, c.component, c.group] ++ c.imageLinkFields
  let (_outs, cell) := renderSeq env.execText cell0 names
  match cell with
  | some e => ⟨0, false, some (.simple ("failed to template PagerDuty v2 message: " ++ e))⟩
  | none =>
    if !env.encodeOk then ⟨0, false, some (.simple "failed to encode PagerDuty v2 message")⟩
    else
      match env.post with
      | .error e => ⟨1, true, some e⟩
      | .ok status => afterPost pagerDutyRetryV2 status

/-- PagerDuty.Notify: a missing group key returns (false, err) before
anything else runs; the details map is rendered directly (a failure is
fatal); the client is built; then the v1 or v2 path is taken. -/
def notify (ctx : GroupCtx) (c : Conf) (env : NotifyEnv) (trigger : Bool) : NotifyResult :=
  match ctx.groupKey with
  | none => ⟨0, false, some (.simple "group key missing")⟩
  | some _key =>
    if (c.details.map (fun v => (env.execText v).2)).any Option.isSome then
      ⟨0, false, some (.simple "failed to template details")⟩
    else if !env.clientOk then ⟨0, false, some (.simple "client error")⟩
    else if apiV1 c then notifyV1 c env trigger
    else notifyV2 c env

end PagerDuty

namespace OpsGenie

/-- Templated fields of an OpsGenie receiver. -/
structure Conf where
  message : String
  description : String
  source : String
  teams : String
  tags : String
  note : String
  priority : String
  apiKey : String
  /-- bodies of the details map, rendered through the shared cell -/
  details : List String

/-- createRequest: a missing group key aborts with retry=false; the
details, then (for the resolved path) the source, or (for the firing
path) the message, teams, tags and the remaining create fields, then the
api key all share one latched cell; a latched error aborts with
retry=false; an encode failure aborts with retry=false; on success the
request is handed back with retry=true as the default for the send. -/
def createRequest (ctx : GroupCtx) (c : Conf) (env : NotifyEnv) (resolved : Bool) :
    Option (Bool × GoErr) :=
  match ctx.groupKey with
  | none => some (false, .simple "group key missing")
  | some _key =>
    let names := c.details ++
      (if resolved then [c.source]
       else [c.message, c.teams, c.tags, c.description, c.source, c.note, c.priority]) ++
      [c.apiKey]
    let (_outs, cell) := renderSeq env.execText none names
    match cell with
    | some e => some (false, .simple ("templating error: " ++ e))
    | none =>
      if !env.encodeOk then some (false, .simple "encode error")
      else none

/-- OpsGenie.Notify: a createRequest failure is surfaced with its own
retry flag and no HTTP call; otherwise the client is built and the
request posted; a transport error is surfaced unredacted. -/
def notify (ctx : GroupCtx) (c : Conf) (env : NotifyEnv) (resolved : Bool) : NotifyResult :=
  match createRequest ctx c env resolved with
  | some (retry, e) => ⟨0, retry, some e⟩
  | none =>
    if !env.clientOk then ⟨0, false, some (.simple "client error")⟩
    else
      match env.post with
      | .error e => ⟨1, true, some e⟩
      | .ok status => afterPost opsGenieRetry status

end OpsGenie

namespace VictorOps

/-- Templated fields of a VictorOps receiver. -/
structure Conf where
  routingKey : String
  messageType : String
  stateMessage : String
  entityDisplayName : String
  monitoringTool : String
  /-- bodies of the custom-fields map -/
  customFields : List String

/-- createVictorOpsPayload: a missing group key aborts; the message type
and state message render through the payload's own latched cell, the
message type is coerced (firing with a value outside the allowed set
becomes CRITICAL, resolved always becomes RECOVERY), the state message
is truncated to 20480 runes, the display name, tool and custom fields
render next; a latched error or an encode failure aborts. -/
def createPayload (ctx : GroupCtx) (c : Conf) (env : NotifyEnv) (firing : Bool) :
    Option GoErr :=
  match ctx.groupKey with
  | none => some (.simple "group key missing")
  | some _key =>
    let (mt0, cell1) := tmplText env.execText none c.messageType
    let (sm0, cell2) := tmplText env.execText cell1 c.stateMessage
    let allowed := mt0 = "INFO" ∨ mt0 = "WARNING" ∨ mt0 = "CRITICAL"
    let _mt1 := if firing ∧ ¬ allowed then "CRITICAL" else mt0
    let _mt2 := if ¬ firing then "RECOVERY" else _mt1
    let (_sm1, _truncated) := truncateStr sm0 20480
    let (_edn, cell3) := tmplText env.execText cell2 c.entityDisplayName
    let (_mtool, cell4) := tmplText env.execText cell3 c.monitoringTool
    match cell4 with
    | some e => some (.simple ("templating error: " ++ e))
    | none =>
      let (_outs, cell5) := renderSeq env.execText none c.customFields
      match cell5 with
      | some e => some (.simple ("templating error: " ++ e))
      | none => if !env.encodeOk then some (.simple "encode error") else none

/-- VictorOps.Notify: the routing key renders through the method's own
cell (later clobbered by the client-construction result, as in the
source); the client is built; a payload failure — including a missing
group key — is surfaced with retry=true and no HTTP call; a transport
error is redacted. -/
def notify (ctx : GroupCtx) (c : Conf) (env : NotifyEnv) (firing : Bool) : NotifyResult :=
  let (_rk, _cellOuter) := tmplText env.execText none c.routingKey
  if !env.clientOk then ⟨0, false, some (.simple "client error")⟩
  else
    match createPayload ctx c env firing with
    | some e => ⟨0, true, some e⟩
    | none =>
      match env.post with
      | .error e => ⟨1, true, some (redactURL e)⟩
      | .ok status => afterPost victorOpsRetry status

end VictorOps

namespace Pushover

/-- Templated fields of a Pushover receiver. -/
structure Conf where
  token : String
  userKey : String
  title : String
  message : String
  url : String
  urlTitle : String
  priority : String
  sound : String
  html : Bool

/-- Pushover.Notify: a missing group key returns (false, err) at once;
the parameters render through one latched cell in source order — token,
user, title (truncated to 250 runes), message (HTML renderer when html
is set, truncated to 1024 runes, trimmed, the placeholder substituted
when empty), url (truncated to 512 runes), url title, priority, sound;
a latched error is fatal; the body-less POST carries everything in the
query string; a transport error is redacted. -/
def notify (ctx : GroupCtx) (c : Conf) (env : NotifyEnv) : NotifyResult :=
  match ctx.groupKey with
  | none => ⟨0, false, some (.simple "group key missing")⟩
  | some _key =>
    let (_token, cell1) := tmplText env.execText none c.token
    let (_user, cell2) := tmplText env.execText cell1 c.userKey
    let (title0, cell3) := tmplText env.execText cell2 c.title
    let (_title, _t1) := truncateStr title0 250
    let (msg0, cell4) :=
      if c.html then tmplHTML env.execHTML cell3 c.message
      else tmplText env.execText cell3 c.message
    let (msg1, _t2) := truncateStr msg0 1024
    let msg2 := msg1.trim
    let _message := if msg2 = "" then "(no details)" else msg2
    let (url0, cell5) := tmplText env.execText cell4 c.url
    let (_url, _t3) := truncateStr url0 512
    let (_urlTitle, cell6) := tmplText env.execText cell5 c.urlTitle
    let (_priority, cell7) := tmplText env.execText cell6 c.priority
    let (_sound, cell8) := tmplText env.execText cell7 c.sound
    match cell8 with
    | some e => ⟨0, false, some (.simple e)⟩
    | none =>
      if !env.clientOk then ⟨0, false, some (.simple "client error")⟩
      else
        match env.post with
        | .error e => ⟨1, true, some (redactURL e)⟩
        | .ok status => afterPost pushoverRetry status

end Pushover

namespace Wechat

/-- Templated fields of a WeChat receiver. -/
structure Conf where
  apiSecret : String
  corpID : String
  message : String
  toUser : String
  toParty : String
  toTag : String
  agentID : String

/-- Per-integration mutable state: the cached access token and the time
it was fetched (in seconds). -/
structure State where
  accessToken : String
  accessTokenAt : Int
deriving Repr, DecidableEq

/-- Decoded outcome of the message/send round trip: whether reading the
body succeeded, the HTTP status, and the body decode — none when
json.Unmarshal fails, otherwise the code and error text of the body. -/
structure SendResp where
  readOk : Bool
  status : Nat
  body : Option (Int × String)
deriving Repr, DecidableEq

/-- Environment of one WeChat Notify invocation. -/
structure Env where
  now : Int
  execText : TmplExec
  clientOk : Bool
  encodeOk : Bool
  /-- gettoken round trip: transport error, or the decoded token — none
  when the token response fails to decode, otherwise the token string -/
  tokenPost : Except GoErr (Option String)
  /-- message/send round trip -/
  sendPost : Except GoErr SendResp

/-- Outcome of one WeChat Notify invocation: the updated integration
state, whether a gettoken request was performed, the request count, the
retry flag and the error. -/
structure Outcome where
  state : State
  didGetToken : Bool
  httpCalls : Nat
  retry : Bool
  err : Option GoErr
deriving Repr, DecidableEq

/-- Send phase shared by both branches (after an optional refresh):
render the message fields through one latched cell, encode, POST to
message/send, then classify — 200 with body code 0 succeeds, 200 with
body code 42001 clears the cached token and retries, any non-200 retries
with the token left in place. -/
def sendPhase (c : Conf) (env : Env) (st : State) (dgt : Bool) (g : Nat) : Outcome :=
  let (_outs, cell) := renderSeq env.execText none
    [c.message, c.toUser, c.toParty, c.toTag, c.agentID]
  match cell with
  | some e => ⟨st, dgt, g, false, some (.simple ("templating error: " ++ e))⟩
  | none =>
    if !env.encodeOk then ⟨st, dgt, g, false, some (.simple "encode error")⟩
    else
      match env.sendPost with
      | .error e => ⟨st, dgt, g + 1, true, some (redactURL e)⟩
      | .ok resp =>
        if !resp.readOk then ⟨st, dgt, g + 1, true, some (.simple "read error")⟩
        else if resp.status ≠ 200 then
          ⟨st, dgt, g + 1, true, some (.simple ("unexpected status code " ++ toString resp.status))⟩
        else
          match resp.body with
          | none => ⟨st, dgt, g + 1, true, some (.simple "unmarshal error")⟩
          | some (code, emsg) =>
            if code = 0 then ⟨st, dgt, g + 1, false, none⟩
            else if code = 42001 then
              ⟨{ st with accessToken := "" }, dgt, g + 1, true, some (.simple emsg)⟩
            else ⟨st, dgt, g + 1, false, some (.simple emsg)⟩

/-- Wechat.Notify: a missing group key aborts first; the client is
built; when the cached token is empty or older than two hours the
corpsecret and corpid are rendered and a gettoken GET refreshes the
cache (transport errors redacted, an empty or undecodable token fatal);
then the send phase runs. -/
def notify (ctx : GroupCtx) (c : Conf) (env : Env) (st : State) : Outcome :=
  match ctx.groupKey with
  | none => ⟨st, false, 0, false, some (.simple "group key missing")⟩
  | some _key =>
    if !env.clientOk then ⟨st, false, 0, false, some (.simple "client error")⟩
    else if st.accessToken = "" ∨ env.now - st.accessTokenAt > 7200 then
      let (_secret, cellA) := tmplText env.execText none c.apiSecret
      let (_corpid, cellB) := tmplText env.execText cellA c.corpID
      match cellB with
      | some e => ⟨st, false, 0, false, some (.simple ("templating error: " ++ e))⟩
      | none =>
        match env.tokenPost with
        | .error e => ⟨st, true, 1, true, some (redactURL e)⟩
        | .ok none => ⟨st, true, 1, false, some (.simple "token decode error")⟩
        | .ok (some tok) =>
          if tok = "" then
            ⟨st, true, 1, false, some (.simple ("invalid APISecret for CorpID: " ++ c.corpID))⟩
          else sendPhase c env { accessToken := tok, accessTokenAt := env.now } true 1
    else sendPhase c env st false 0

end Wechat

/-! ## Tenant engine: ApplyConfig handle replacement (alertmanager.go)

NewAlertmanager leaves the inhibitor and dispatcher handles unset; every
ApplyConfig first re-renders the templates and updates the two APIs, then
calls Stop on the current inhibitor and the current dispatcher without
any guard at the call site, then builds and starts fresh ones.  The Stop
callees live in the external prometheus/alertmanager dependency, so
their behaviour on a nil receiver is a parameter of the model: a nil
dereference panic is modelled as the error outcome. -/

/-- Replaceable inner handles of one tenant engine; a handle is none
before the first ApplyConfig installs one. -/
structure EngineHandles where
  inhibitor : Option Nat
  dispatcher : Option Nat
deriving Repr, DecidableEq

/-- Handles of a freshly constructed engine: NewAlertmanager sets
neither the inhibitor nor the dispatcher. -/
def newEngineHandles : EngineHandles := { inhibitor := none, dispatcher := none }

/-- Environment of one ApplyConfig call: the early template and API
steps, the behaviour of the external Stop implementations when handed
the current (possibly nil) handles, and the identities of the fresh
inhibitor and dispatcher that get installed and started. -/
structure ApplyEnv where
  fromGlobsOk : Bool
  apiV1Ok : Bool
  apiV2Ok : Bool
  stopInhibitor : Option Nat → Except String Unit
  stopDispatcher : Option Nat → Except String Unit
  freshInhibitor : Nat
  freshDispatcher : Nat

/-- ApplyConfig: template recompilation and the two API updates may
return early; then Stop is invoked unconditionally on both current
handles (the call site contains no nil guard — the outcome is whatever
the external callee does with the handle); then the fresh inhibitor and
dispatcher are installed. -/
def applyConfig (env : ApplyEnv) (h : EngineHandles) : Except String EngineHandles :=
  if !env.fromGlobsOk then .error "template error"
  else if !env.apiV1Ok then .error "api v1 update error"
  else if !env.apiV2Ok then .error "api v2 update error"
  else
    match env.stopInhibitor h.inhibitor with
    | .error e => .error e
    | .ok _ =>
      match env.stopDispatcher h.dispatcher with
      | .error e => .error e
      | .ok _ => .ok { inhibitor := some env.freshInhibitor, dispatcher := some env.freshDispatcher }

/-- Stop implementation that dereferences its receiver without a nil
check: a nil handle faults. -/
def derefStop : Option Nat → Except String Unit
  | none => .error "nil pointer dereference"
  | some _ => .ok ()

/-- Stop implementation that returns at once on a nil receiver. -/
def nilSafeStop : Option Nat → Except String Unit
  | _ => .ok ()

/-! ## Multi-tenant Manager (multitenant.go, the version the claims cite)

Maps are association lists with the write operations Go maps provide. -/

/-- Association-list lookup. -/
def lookupA {α β : Type} [DecidableEq α] : List (α × β) → α → Option β
  | [], _ => none
  | (k1, v) :: rest, k => if k1 = k then some v else lookupA rest k

/-- Association-list delete. -/
def eraseA {α β : Type} [DecidableEq α] : List (α × β) → α → List (α × β)
  | [], _ => []
  | (k1, v) :: rest, k => if k1 = k then eraseA rest k else (k1, v) :: eraseA rest k

/-- Association-list set (insert or replace). -/
def setA {α β : Type} [DecidableEq α] : List (α × β) → α → β → List (α × β)
  | [], k, v => [(k, v)]
  | (k1, v1) :: rest, k, v => if k1 = k then (k1, v) :: rest else (k1, v1) :: setA rest k v

/-- Association-list in-place update of an existing entry. -/
def updateA {α β : Type} [DecidableEq α] (f : β → β) : List (α × β) → α → List (α × β)
  | [], _ => []
  | (k1, v1) :: rest, k => if k1 = k then (k1, f v1) :: rest else (k1, v1) :: updateA f rest k

/-- TenantConfig of the cited Manager version: note there is no
deleted-at field in this version of the type. -/
structure TenantConfig where
  config : String
  templateFiles : List (String × String)
  updatedAtInUnix : Int
  deactivatedAtInUnix : Int
deriving Repr, DecidableEq

/-- TenantConfig of the later Manager version in the repository, which
carries the user id and a deleted-at timestamp. -/
structure TenantConfigV2 where
  userID : String
  config : String
  templateFiles : List (String × String)
  updatedAtInUnix : Int
  deactivatedAtInUnix : Int
  deletedAtInUnix : Int
deriving Repr, DecidableEq

/-- One running per-tenant engine: its identity and how many times
ApplyConfig has run on it (once at creation inside newAlertmanager). -/
structure Engine where
  id : Nat
  applyCount : Nat
deriving Repr, DecidableEq

/-- Manager state over a tenant-config type: the cached configs, the
running engines, the on-disk template files keyed by (user, filename),
a source of fresh engine identities, and the incremental-poll
watermark. -/
structure MState (γ : Type) where
  cfgs : List (String × γ)
  engines : List (String × Engine)
  disk : List ((String × String) × String)
  nextEngineID : Nat
  configsUpdatedAtUnix : Int
deriving Repr, DecidableEq

/-- createTemplatesFile: read the current file; when it exists with the
same content report no change; otherwise write and report a change. -/
def createTemplatesFile {γ : Type} (st : MState γ) (userID fn content : String) :
    MState γ × Bool :=
  match lookupA st.disk (userID, fn) with
  | some existing =>
    if existing = content then (st, false)
    else ({ st with disk := setA st.disk (userID, fn) content }, true)
  | none => ({ st with disk := setA st.disk (userID, fn) content }, true)

/-- The template loop of setConfig: write every file, noting whether any
changed. -/
def writeTemplates {γ : Type} (st : MState γ) (userID : String)
    (files : List (String × String)) : MState γ × Bool :=
  files.foldl
    (fun acc fc =>
      let (st1, changed) := createTemplatesFile acc.1 userID fc.1 fc.2
      (st1, acc.2 || changed))
    (st, false)

/-- newAlertmanager: construct a fresh engine and run ApplyConfig on it
once before handing it back. -/
def newAlertmanager {γ : Type} (st : MState γ) : Engine × MState γ :=
  ({ id := st.nextEngineID, applyCount := 1 }, { st with nextEngineID := st.nextEngineID + 1 })

/-- setConfig of the cited Manager version.  The deactivated branch
stops and removes the engine and drops the cached config but does not
return — control falls through: the templates are written, the config
text parsed, and, the engine having just been removed, a brand-new
engine is created and inserted whenever the parse succeeds.  Neither
creation nor re-apply writes the cfgs cache in this version.  The
receiver-config parser is abstracted as a predicate on the config
text. -/
def setConfig (parse : String → Bool) (st0 : MState TenantConfig) (userID : String)
    (config : TenantConfig) : MState TenantConfig × Option String :=
  let st1 :=
    if config.deactivatedAtInUnix > 0 then
      let stA :=
        if (lookupA st0.engines userID).isSome then
          { st0 with engines := eraseA st0.engines userID }
        else st0
      if (lookupA stA.cfgs userID).isSome then
        { stA with cfgs := eraseA stA.cfgs userID }
      else stA
    else st0
  let hasExisting := (lookupA st1.engines userID).isSome
  let (st2, hasTemplateChanges) := writeTemplates st1 userID config.templateFiles
  if ¬ parse config.config then
    (st2, some ("failed load alertmanager config for user " ++ userID))
  else if ¬ hasExisting then
    let (eng, st3) := newAlertmanager st2
    ({ st3 with engines := setA st3.engines userID eng }, none)
  else if ((lookupA st2.cfgs userID).map TenantConfig.config).getD "" ≠ config.config
      ∨ hasTemplateChanges then
    ({ st2 with
        engines := updateA (fun e => { e with applyCount := e.applyCount + 1 }) st2.engines userID },
     none)
  else (st2, none)

/-- setConfig of the later Manager version in the repository: the
tear-down branch fires on a positive deactivated-at OR deleted-at and
returns at once, and both the creation and the re-apply paths write the
applied config into the cfgs cache. -/
def setConfigV2 (parse : String → Bool) (st0 : MState TenantConfigV2) (userID : String)
    (config : TenantConfigV2) : MState TenantConfigV2 × Option String :=
  if config.deactivatedAtInUnix > 0 ∨ config.deletedAtInUnix > 0 then
    let stA :=
      if (lookupA st0.engines userID).isSome then
        { st0 with engines := eraseA st0.engines userID }
      else st0
    let stB :=
      if (lookupA stA.cfgs userID).isSome then
        { stA with cfgs := eraseA stA.cfgs userID }
      else stA
    (stB, none)
  else
    let hasExisting := (lookupA st0.engines userID).isSome
    let (st2, hasTemplateChanges) := writeTemplates st0 userID config.templateFiles
    if ¬ parse config.config then
      (st2, some ("failed load alertmanager config for user " ++ userID))
    else if ¬ hasExisting then
      let (eng, st3) := newAlertmanager st2
      ({ st3 with
          engines := setA st3.engines userID eng,
          cfgs := setA st3.cfgs userID config }, none)
    else if ((lookupA st2.cfgs userID).map TenantConfigV2.config).getD "" ≠ config.config
        ∨ hasTemplateChanges then
      ({ st2 with
          engines := updateA (fun e => { e with applyCount := e.applyCount + 1 }) st2.engines userID,
          cfgs := setA st2.cfgs userID config }, none)
    else (st2, none)

/-- getLatestUpdateTime: fold over the polled configs, raising the
running value whenever a config was updated later. -/
def getLatestUpdateTime (cfgs : List TenantConfig) (cur : Int) : Int :=
  cfgs.foldl (fun cur c => if c.updatedAtInUnix > cur then c.updatedAtInUnix else cur) cur

/-- The argument poll hands to GetAllConfigsUpdatedOrDeletedAfter: the
current watermark. -/
def pollRequestArg (watermark : Int) : Int := watermark

/-- poll: on a client error the watermark is untouched; on success it is
advanced through getLatestUpdateTime. -/
def poll (watermark : Int) (resp : Except String (List TenantConfig)) : Int :=
  match resp with
  | .error _ => watermark
  | .ok cfgs => getLatestUpdateTime cfgs watermark

/-! ## Helper lemmas -/

theorem truncate_fits (s : List Char) (n : Nat) (h : s.length ≤ n) :
    truncate s n = (s, false) := by
  unfold truncate
  simp [h]

theorem truncate_len_le (s : List Char) (n : Nat) : (truncate s n).1.length ≤ n := by
  unfold truncate
  by_cases h1 : s.length ≤ n
  · simp [h1]
  · by_cases h2 : n ≤ 3
    · simp [h1, h2, List.length_take]
    · simp [h1, h2, List.length_take]
      omega

/-- Webhook classification, characterized by status ranges. -/
theorem webhookRetry_spec (s : Nat) :
    (200 ≤ s ∧ s ≤ 299 → webhookRetry s = (false, none)) ∧
    (¬ (200 ≤ s ∧ s ≤ 299) →
      (webhookRetry s).2.isSome ∧ ((webhookRetry s).1 = true ↔ 500 ≤ s ∧ s ≤ 599)) := by
  constructor
  · intro hs
    have h2 : s / 100 = 2 := by omega
    simp [webhookRetry, h2]
  · intro hs
    have h2 : s / 100 ≠ 2 := by omega
    simp [webhookRetry, h2]
    omega

/-- Slack classification (same ranges as the webhook). -/
theorem slackRetry_spec (s : Nat) :
    (200 ≤ s ∧ s ≤ 299 → slackRetry s = (false, none)) ∧
    (¬ (200 ≤ s ∧ s ≤ 299) →
      (slackRetry s).2.isSome ∧ ((slackRetry s).1 = true ↔ 500 ≤ s ∧ s ≤ 599)) := by
  constructor
  · intro hs
    have h2 : s / 100 = 2 := by omega
    simp [slackRetry, h2]
  · intro hs
    have h2 : s / 100 ≠ 2 := by omega
    simp [slackRetry, h2]
    omega

/-- VictorOps classification. -/
theorem victorOpsRetry_spec (s : Nat) :
    (200 ≤ s ∧ s ≤ 299 → victorOpsRetry s = (false, none)) ∧
    (¬ (200 ≤ s ∧ s ≤ 299) →
      (victorOpsRetry s).2.isSome ∧ ((victorOpsRetry s).1 = true ↔ 500 ≤ s ∧ s ≤ 599)) := by
  constructor
  · intro hs
    have h2 : s / 100 = 2 := by omega
    have h5 : s / 100 ≠ 5 := by omega
    simp [victorOpsRetry, h2, h5]
  · intro hs
    have h2 : s / 100 ≠ 2 := by omega
    by_cases h5 : s / 100 = 5
    · simp [victorOpsRetry, h5]
      omega
    · simp [victorOpsRetry, h2, h5]
      omega

/-- Pushover classification. -/
theorem pushoverRetry_spec (s : Nat) :
    (200 ≤ s ∧ s ≤ 299 → pushoverRetry s = (false, none)) ∧
    (¬ (200 ≤ s ∧ s ≤ 299) →
      (pushoverRetry s).2.isSome ∧ ((pushoverRetry s).1 = true ↔ 500 ≤ s ∧ s ≤ 599)) := by
  constructor
  · intro hs
    have h2 : s / 100 = 2 := by omega
    have h5 : s / 100 ≠ 5 := by omega
    simp [pushoverRetry, h2, h5]
  · intro hs
    have h2 : s / 100 ≠ 2 := by omega
    by_cases h5 : s / 100 = 5
    · simp [pushoverRetry, h5]
      omega
    · simp [pushoverRetry, h2, h5]
      omega

/-- PagerDuty v1 classification: 5xx or 403 retryable. -/
theorem pagerDutyRetryV1_spec (s : Nat) :
    (200 ≤ s ∧ s ≤ 299 → pagerDutyRetryV1 s = (false, none)) ∧
    (¬ (200 ≤ s ∧ s ≤ 299) →
      (pagerDutyRetryV1 s).2.isSome ∧
      ((pagerDutyRetryV1 s).1 = true ↔ (500 ≤ s ∧ s ≤ 599) ∨ s = 403)) := by
  constructor
  · intro hs
    have h2 : s / 100 = 2 := by omega
    simp [pagerDutyRetryV1, h2]
  · intro hs
    have h2 : s / 100 ≠ 2 := by omega
    simp [pagerDutyRetryV1, h2]
    omega

/-- PagerDuty v2 classification: 5xx or 429 retryable. -/
theorem pagerDutyRetryV2_spec (s : Nat) :
    (200 ≤ s ∧ s ≤ 299 → pagerDutyRetryV2 s = (false, none)) ∧
    (¬ (200 ≤ s ∧ s ≤ 299) →
      (pagerDutyRetryV2 s).2.isSome ∧
      ((pagerDutyRetryV2 s).1 = true ↔ (500 ≤ s ∧ s ≤ 599) ∨ s = 429)) := by
  constructor
  · intro hs
    have h2 : s / 100 = 2 := by omega
    simp [pagerDutyRetryV2, h2]
  · intro hs
    have h2 : s / 100 ≠ 2 := by omega
    simp [pagerDutyRetryV2, h2]
    omega

/-- Hipchat classification: 5xx or 429 retryable. -/
theorem hipchatRetry_spec (s : Nat) :
    (200 ≤ s ∧ s ≤ 299 → hipchatRetry s = (false, none)) ∧
    (¬ (200 ≤ s ∧ s ≤ 299) →
      (hipchatRetry s).2.isSome ∧
      ((hipchatRetry s).1 = true ↔ (500 ≤ s ∧ s ≤ 599) ∨ s = 429)) := by
  constructor
  · intro hs
    have h2 : s / 100 = 2 := by omega
    simp [hipchatRetry, h2]
  · intro hs
    have h2 : s / 100 ≠ 2 := by omega
    simp [hipchatRetry, h2]
    omega

/-- OpsGenie classification: 5xx or 429 retryable. -/
theorem opsGenieRetry_spec (s : Nat) :
    (200 ≤ s ∧ s ≤ 299 → opsGenieRetry s = (false, none)) ∧
    (¬ (200 ≤ s ∧ s ≤ 299) →
      (opsGenieRetry s).2.isSome ∧
      ((opsGenieRetry s).1 = true ↔ (500 ≤ s ∧ s ≤ 599) ∨ s = 429)) := by
  constructor
  · intro hs
    have h5 : s / 100 ≠ 5 := by omega
    have h429 : s ≠ 429 := by omega
    have h2 : s / 100 = 2 := by omega
    simp [opsGenieRetry, h5, h429, h2]
  · intro hs
    have h2 : s / 100 ≠ 2 := by omega
    by_cases h5 : s / 100 = 5 ∨ s = 429
    · have : (s / 100 == 5 || s == 429) = true := by
        rcases h5 with h | h <;> simp [h]
      simp [opsGenieRetry, this]
      omega
    · push_neg at h5
      have : (s / 100 == 5 || s == 429) = false := by
        simp [h5.1, h5.2]
      simp [opsGenieRetry, this, h2]
      omega

/-! ## Claim theorems -/

/-- C3: truncate keeps an input that fits unchanged with a false flag;
an oversized input is cut to its first n code points when n is at most
3, and to its first n-3 code points plus three dots otherwise; the
output never exceeds n code points; and truncation is idempotent beyond
the first application.  The embedding operates on the rune list of the
string, exactly as the source converts the string to a rune slice before
any slicing. -/
theorem C3_truncate_spec (s : List Char) (n : Nat) :
    (s.length ≤ n → truncate s n = (s, false)) ∧
    (n < s.length → n ≤ 3 → truncate s n = (s.take n, true)) ∧
    (n < s.length → 3 < n → truncate s n = (s.take (n - 3) ++ ['.', '.', '.'], true)) ∧
    (truncate s n).1.length ≤ n ∧
    truncate (truncate s n).1 n = ((truncate s n).1, false) := by
  refine ⟨?_, ?_, ?_, truncate_len_le s n, ?_⟩
  · exact truncate_fits s n
  · intro h1 h2
    unfold truncate
    simp [h2]
    omega
  · intro h1 h2
    unfold truncate
    have hn3 : ¬ n ≤ 3 := by omega
    have hns : ¬ s.length ≤ n := by omega
    simp [hn3, hns]
  · exact truncate_fits _ n (truncate_len_le s n)

/-- C3 witness: a concrete over-long string is cut to four code points
(one kept plus the three-dot ellipsis), and the cut is idempotent. -/
theorem C3_truncate_witness :
    "hello".toList.length ≤ 10 ∧
    truncate "hello".toList 10 = ("hello".toList, false) ∧
    truncate "overflow".toList 4 = ("o...".toList, true) ∧
    truncate "o...".toList 4 = ("o...".toList, false) := by
  refine ⟨by decide, (C3_truncate_spec "hello".toList 10).1 (by decide), ?_, ?_⟩
  · have h := (C3_truncate_spec "overflow".toList 4).2.2.1 (by decide) (by decide)
    rw [h]
    decide
  · exact (C3_truncate_spec "o...".toList 4).1 (by decide)

/-- C2: for every provider classifier, a 2xx status yields no error and
no retry; the provider-specific retryable statuses (5xx for the webhook,
Slack, VictorOps and Pushover; 5xx or 403 for PagerDuty v1; 5xx or 429
for PagerDuty v2, Hipchat and OpsGenie) yield an error with the retry
flag set; every other status yields an error with the retry flag
clear. -/
theorem C2_retry_classifiers (s : Nat) :
    ((200 ≤ s ∧ s ≤ 299 → webhookRetry s = (false, none)) ∧
     (¬ (200 ≤ s ∧ s ≤ 299) →
       (webhookRetry s).2.isSome ∧ ((webhookRetry s).1 = true ↔ 500 ≤ s ∧ s ≤ 599))) ∧
    ((200 ≤ s ∧ s ≤ 299 → slackRetry s = (false, none)) ∧
     (¬ (200 ≤ s ∧ s ≤ 299) →
       (slackRetry s).2.isSome ∧ ((slackRetry s).1 = true ↔ 500 ≤ s ∧ s ≤ 599))) ∧
    ((200 ≤ s ∧ s ≤ 299 → victorOpsRetry s = (false, none)) ∧
     (¬ (200 ≤ s ∧ s ≤ 299) →
       (victorOpsRetry s).2.isSome ∧ ((victorOpsRetry s).1 = true ↔ 500 ≤ s ∧ s ≤ 599))) ∧
    ((200 ≤ s ∧ s ≤ 299 → pushoverRetry s = (false, none)) ∧
     (¬ (200 ≤ s ∧ s ≤ 299) →
       (pushoverRetry s).2.isSome ∧ ((pushoverRetry s).1 = true ↔ 500 ≤ s ∧ s ≤ 599))) ∧
    ((200 ≤ s ∧ s ≤ 299 → pagerDutyRetryV1 s = (false, none)) ∧
     (¬ (200 ≤ s ∧ s ≤ 299) →
       (pagerDutyRetryV1 s).2.isSome ∧
       ((pagerDutyRetryV1 s).1 = true ↔ (500 ≤ s ∧ s ≤ 599) ∨ s = 403))) ∧
    ((200 ≤ s ∧ s ≤ 299 → pagerDutyRetryV2 s = (false, none)) ∧
     (¬ (200 ≤ s ∧ s ≤ 299) →
       (pagerDutyRetryV2 s).2.isSome ∧
       ((pagerDutyRetryV2 s).1 = true ↔ (500 ≤ s ∧ s ≤ 599) ∨ s = 429))) ∧
    ((200 ≤ s ∧ s ≤ 299 → hipchatRetry s = (false, none)) ∧
     (¬ (200 ≤ s ∧ s ≤ 299) →
       (hipchatRetry s).2.isSome ∧
       ((hipchatRetry s).1 = true ↔ (500 ≤ s ∧ s ≤ 599) ∨ s = 429))) ∧
    ((200 ≤ s ∧ s ≤ 299 → opsGenieRetry s = (false, none)) ∧
     (¬ (200 ≤ s ∧ s ≤ 299) →
       (opsGenieRetry s).2.isSome ∧
       ((opsGenieRetry s).1 = true ↔ (500 ≤ s ∧ s ≤ 599) ∨ s = 429))) :=
  ⟨webhookRetry_spec s, slackRetry_spec s, victorOpsRetry_spec s, pushoverRetry_spec s,
   pagerDutyRetryV1_spec s, pagerDutyRetryV2_spec s, hipchatRetry_spec s, opsGenieRetry_spec s⟩

/-- C2 witness: the classifiers evaluated at 200, 502, 404, 403 and
429 through the classification theorem. -/
theorem C2_retry_classifiers_witness :
    webhookRetry 200 = (false, none) ∧
    (webhookRetry 502).1 = true ∧
    (webhookRetry 404).1 = false ∧ (webhookRetry 404).2.isSome ∧
    (pagerDutyRetryV1 403).1 = true ∧
    (pagerDutyRetryV2 429).1 = true ∧
    (hipchatRetry 429).1 = true ∧
    (opsGenieRetry 429).1 = true ∧
    (slackRetry 429).1 = false ∧
    (victorOpsRetry 429).1 = false ∧
    (pushoverRetry 429).1 = false := by
  refine ⟨(C2_retry_classifiers 200).1.1 (by decide),
    ((C2_retry_classifiers 502).1.2 (by decide)).2.mpr (by decide),
    ?_, ((C2_retry_classifiers 404).1.2 (by decide)).1,
    ((C2_retry_classifiers 403).2.2.2.2.1.2 (by decide)).2.mpr (by decide),
    ((C2_retry_classifiers 429).2.2.2.2.2.1.2 (by decide)).2.mpr (by decide),
    ((C2_retry_classifiers 429).2.2.2.2.2.2.1.2 (by decide)).2.mpr (by decide),
    ((C2_retry_classifiers 429).2.2.2.2.2.2.2.2 (by decide)).2.mpr (by decide),
    ?_, ?_, ?_⟩
  · have h := ((C2_retry_classifiers 404).1.2 (by decide)).2
    by_contra hc
    simp at hc
    exact absurd (h.mp hc) (by decide)
  · have h := ((C2_retry_classifiers 429).2.1.2 (by decide)).2
    by_contra hc
    simp at hc
    exact absurd (h.mp hc) (by decide)
  · have h := ((C2_retry_classifiers 429).2.2.1.2 (by decide)).2
    by_contra hc
    simp at hc
    exact absurd (h.mp hc) (by decide)
  · have h := ((C2_retry_classifiers 429).2.2.2.1.2 (by decide)).2
    by_contra hc
    simp at hc
    exact absurd (h.mp hc) (by decide)

theorem getLatestUpdateTime_cons (d : TenantConfig) (rest : List TenantConfig) (cur : Int) :
    getLatestUpdateTime (d :: rest) cur =
      getLatestUpdateTime rest (if d.updatedAtInUnix > cur then d.updatedAtInUnix else cur) :=
  rfl

theorem getLatestUpdateTime_ge (cfgs : List TenantConfig) (cur : Int) :
    cur ≤ getLatestUpdateTime cfgs cur := by
  induction cfgs generalizing cur with
  | nil => exact le_refl cur
  | cons c rest ih =>
    rw [getLatestUpdateTime_cons]
    by_cases h : c.updatedAtInUnix > cur
    · rw [if_pos h]
      exact le_trans (le_of_lt h) (ih c.updatedAtInUnix)
    · rw [if_neg h]
      exact ih cur

theorem getLatestUpdateTime_mem (cfgs : List TenantConfig) (cur : Int) :
    ∀ c ∈ cfgs, c.updatedAtInUnix ≤ getLatestUpdateTime cfgs cur := by
  induction cfgs generalizing cur with
  | nil => intro c hc; cases hc
  | cons d rest ih =>
    intro c hc
    rw [getLatestUpdateTime_cons]
    rcases List.mem_cons.mp hc with h | h
    · subst h
      by_cases hgt : c.updatedAtInUnix > cur
      · rw [if_pos hgt]
        exact getLatestUpdateTime_ge rest c.updatedAtInUnix
      · rw [if_neg hgt]
        exact le_trans (not_lt.mp hgt) (getLatestUpdateTime_ge rest cur)
    · by_cases hgt : d.updatedAtInUnix > cur
      · rw [if_pos hgt]
        exact ih d.updatedAtInUnix c h
      · rw [if_neg hgt]
        exact ih cur c h

theorem getLatestUpdateTime_cases (cfgs : List TenantConfig) (cur : Int) :
    getLatestUpdateTime cfgs cur = cur ∨
    ∃ c ∈ cfgs, getLatestUpdateTime cfgs cur = c.updatedAtInUnix := by
  induction cfgs generalizing cur with
  | nil => exact Or.inl rfl
  | cons d rest ih =>
    rw [getLatestUpdateTime_cons]
    by_cases hgt : d.updatedAtInUnix > cur
    · rw [if_pos hgt]
      rcases ih d.updatedAtInUnix with h | ⟨c, hc, h⟩
      · exact Or.inr ⟨d, List.mem_cons_self d rest, h⟩
      · exact Or.inr ⟨c, List.mem_cons_of_mem d hc, h⟩
    · rw [if_neg hgt]
      rcases ih cur with h | ⟨c, hc, h⟩
      · exact Or.inl h
      · exact Or.inr ⟨c, List.mem_cons_of_mem d hc, h⟩

theorem poll_ge (w : Int) (resp : Except String (List TenantConfig)) : w ≤ poll w resp := by
  cases resp with
  | error e => exact le_refl w
  | ok cfgs => exact getLatestUpdateTime_ge cfgs w

theorem poll_foldl_ge (seq : List (Except String (List TenantConfig))) (w : Int) :
    w ≤ seq.foldl poll w := by
  induction seq generalizing w with
  | nil => exact le_refl w
  | cons r rest ih => exact le_trans (poll_ge w r) (ih (poll w r))

/-- C10: after a successful poll the watermark is the maximum of its
previous value and the largest updated-at among the returned configs
(it bounds both, and is attained by one of them); a failed poll leaves
it unchanged; over any sequence of polls the watermark never decreases;
and the argument the poll hands to the incremental fetch is exactly the
current watermark. -/
theorem C10_poll_watermark (w : Int) (cfgs : List TenantConfig)
    (e : String) (seq : List (Except String (List TenantConfig))) :
    (w ≤ poll w (.ok cfgs)) ∧
    (∀ c ∈ cfgs, c.updatedAtInUnix ≤ poll w (.ok cfgs)) ∧
    (poll w (.ok cfgs) = w ∨ ∃ c ∈ cfgs, poll w (.ok cfgs) = c.updatedAtInUnix) ∧
    (poll w (.error e) = w) ∧
    (w ≤ seq.foldl poll w) ∧
    (pollRequestArg w = w) :=
  ⟨getLatestUpdateTime_ge cfgs w, getLatestUpdateTime_mem cfgs w,
   getLatestUpdateTime_cases cfgs w, rfl, poll_foldl_ge seq w, rfl⟩

/-- C10 witness: one concrete poll returning two configs advances the
watermark past both updated-at stamps and past its old value. -/
theorem C10_poll_watermark_witness :
    (3 : Int) ≤ poll 3 (.ok [⟨"a", [], 7, 0⟩, ⟨"b", [], 5, 0⟩]) ∧
    (7 : Int) ≤ poll 3 (.ok [⟨"a", [], 7, 0⟩, ⟨"b", [], 5, 0⟩]) ∧
    poll 3 (.error "unreachable") = 3 := by
  have h := C10_poll_watermark 3 [⟨"a", [], 7, 0⟩, ⟨"b", [], 5, 0⟩] "unreachable" []
  exact ⟨h.1, h.2.1 ⟨"a", [], 7, 0⟩ (by simp), h.2.2.2.1⟩

theorem tmplText_none (exec : TmplExec) (nm : String) : tmplText exec none nm = exec nm := rfl

theorem tmplText_some (exec : TmplExec) (e : String) (nm : String) :
    tmplText exec (some e) nm = ("", some e) := rfl

theorem tmplText_ok (exec : TmplExec) (nm : String) (h : (exec nm).2 = none) :
    tmplText exec none nm = ((exec nm).1, none) := by
  rw [tmplText_none]
  exact Prod.ext rfl h

theorem tmplHTML_ok (exec : TmplExec) (nm : String) (h : (exec nm).2 = none) :
    tmplHTML exec none nm = ((exec nm).1, none) := by
  show exec nm = ((exec nm).1, none)
  exact Prod.ext rfl h

theorem renderSeq_cons (exec : TmplExec) (cell : Option String) (nm : String)
    (rest : List String) :
    renderSeq exec cell (nm :: rest) =
      ((tmplText exec cell nm).1 :: (renderSeq exec (tmplText exec cell nm).2 rest).1,
       (renderSeq exec (tmplText exec cell nm).2 rest).2) := by
  rcases h : tmplText exec cell nm with ⟨s, c⟩
  simp [renderSeq, h]

theorem renderSeq_latched (exec : TmplExec) (e : String) (names : List String) :
    renderSeq exec (some e) names = (names.map (fun _ => ""), some e) := by
  induction names with
  | nil => rfl
  | cons nm rest ih =>
    rw [renderSeq_cons, tmplText_some]
    simp only [List.map_cons]
    rw [ih]

theorem renderSeq_all_ok (exec : TmplExec) (names : List String)
    (h : ∀ nm ∈ names, (exec nm).2 = none) :
    renderSeq exec none names = (names.map (fun nm => (exec nm).1), none) := by
  induction names with
  | nil => rfl
  | cons nm rest ih =>
    have hnm : (exec nm).2 = none := h nm (List.mem_cons_self nm rest)
    rw [renderSeq_cons, tmplText_none, hnm,
      ih (fun x hxin => h x (List.mem_cons_of_mem nm hxin))]
    simp

/-- C4: the latched renderer — a call made after a failure returns the
empty string without running any executor and leaves the latched error
in place; in a call sequence through one shared cell whose prefix
renders cleanly and whose next call fails, every later call yields the
empty string and the final cell holds exactly the first failure; and a
Slack notification whose rendering latched an error returns it once,
not retryable, without issuing any HTTP request. -/
theorem C4_template_latch (exec : TmplExec) (pre post : List String) (bad : String)
    (e : String) (c : Slack.Conf) (env : NotifyEnv)
    (hpre : ∀ nm ∈ pre, (exec nm).2 = none) (hbad : (exec bad).2 = some e) :
    (∀ g : TmplExec, ∀ nm, tmplText g (some e) nm = ("", some e)) ∧
    (renderSeq exec none (pre ++ bad :: post)).2 = some e ∧
    (renderSeq exec none (pre ++ bad :: post)).1 =
      pre.map (fun nm => (exec nm).1) ++ (exec bad).1 :: post.map (fun _ => "") ∧
    (env.execText = exec → Slack.renderOrder c = pre ++ bad :: post →
      Slack.notify c env = ⟨0, false, some (.simple e)⟩) := by
  have hseq : renderSeq exec none (pre ++ bad :: post) =
      (pre.map (fun nm => (exec nm).1) ++ (exec bad).1 :: post.map (fun _ => ""), some e) := by
    induction pre with
    | nil =>
      rw [List.nil_append, renderSeq_cons, tmplText_none, hbad, renderSeq_latched]
      simp
    | cons nm rest ih =>
      have hnm : (exec nm).2 = none := hpre nm (List.mem_cons_self nm rest)
      rw [List.cons_append, renderSeq_cons, tmplText_none, hnm,
        ih (fun x hxin => hpre x (List.mem_cons_of_mem nm hxin))]
      simp
  refine ⟨fun g nm => rfl, by rw [hseq], by rw [hseq], ?_⟩
  intro henv horder
  unfold Slack.notify
  rw [henv, horder, hseq]

/-- C4 witness: a three-call sequence whose middle call fails yields an
empty string for the trailing call, latches the first error, and makes
the Slack notifier return it without retrying or posting. -/
theorem C4_template_latch_witness :
    (renderSeq (fun nm => if nm = "b" then ("partial", some "boom") else (nm, none))
      none ["a", "b", "z"]).1 = ["a", "partial", ""] ∧
    (renderSeq (fun nm => if nm = "b" then ("partial", some "boom") else (nm, none))
      none ["a", "b", "z"]).2 = some "boom" ∧
    Slack.notify
      ⟨"a", "a", "b", "a", "a", "a", "a", "a", "a", "a", [], [], "a", "a", "a", "a"⟩
      { execText := fun nm => if nm = "b" then ("partial", some "boom") else (nm, none),
        execHTML := fun nm => (nm, none),
        encodeOk := true, clientOk := true, post := .ok 200 } =
      ⟨0, false, some (.simple "boom")⟩ := by
  have h := C4_template_latch
    (fun nm => if nm = "b" then ("partial", some "boom") else (nm, none))
    ["a", "a"] ["a", "a", "a", "a", "a", "a", "a", "a", "a", "a", "a"] "b" "boom"
    ⟨"a", "a", "b", "a", "a", "a", "a", "a", "a", "a", [], [], "a", "a", "a", "a"⟩
    { execText := fun nm => if nm = "b" then ("partial", some "boom") else (nm, none),
      execHTML := fun nm => (nm, none),
      encodeOk := true, clientOk := true, post := .ok 200 }
    (by decide) (by decide)
  have h2 := C4_template_latch
    (fun nm => if nm = "b" then ("partial", some "boom") else (nm, none))
    ["a"] ["z"] "b" "boom"
    ⟨"a", "a", "b", "a", "a", "a", "a", "a", "a", "a", [], [], "a", "a", "a", "a"⟩
    { execText := fun nm => if nm = "b" then ("partial", some "boom") else (nm, none),
      execHTML := fun nm => (nm, none),
      encodeOk := true, clientOk := true, post := .ok 200 }
    (by decide) (by decide)
  refine ⟨?_, ?_, h.2.2.2 rfl (by rfl)⟩
  · simpa using h2.2.2.1
  · simpa using h2.2.1

theorem sendPhase_didGetToken (c : Wechat.Conf) (env : Wechat.Env) (st : Wechat.State)
    (dgt : Bool) (g : Nat) : (Wechat.sendPhase c env st dgt g).didGetToken = dgt := by
  unfold Wechat.sendPhase
  repeat' split <;> try rfl

theorem sendPhase_renderOk (c : Wechat.Conf) (env : Wechat.Env) (st : Wechat.State)
    (dgt : Bool) (g : Nat)
    (hrender : ∀ nm, (env.execText nm).2 = none) (hencode : env.encodeOk = true) :
    Wechat.sendPhase c env st dgt g =
      (match env.sendPost with
       | .error e => ⟨st, dgt, g + 1, true, some (redactURL e)⟩
       | .ok resp =>
         if !resp.readOk then ⟨st, dgt, g + 1, true, some (.simple "read error")⟩
         else if resp.status ≠ 200 then
           ⟨st, dgt, g + 1, true, some (.simple ("unexpected status code " ++ toString resp.status))⟩
         else
           match resp.body with
           | none => ⟨st, dgt, g + 1, true, some (.simple "unmarshal error")⟩
           | some (code, emsg) =>
             if code = 0 then ⟨st, dgt, g + 1, false, none⟩
             else if code = 42001 then
               ⟨{ st with accessToken := "" }, dgt, g + 1, true, some (.simple emsg)⟩
             else ⟨st, dgt, g + 1, false, some (.simple emsg)⟩) := by
  unfold Wechat.sendPhase
  rw [renderSeq_all_ok env.execText _ (fun nm _ => hrender nm), hencode]
  rfl

/-- C7: with a cached, fresh access token — so no refresh leg runs — a
200 send response whose body decodes with code 0 succeeds with no retry
and leaves the state untouched; a 200 response with body code 42001
clears the cached token and returns a retryable error, after which the
next invocation (token now empty) performs the gettoken GET before any
send; and a non-200 response returns a retryable error with the cached
token left in place. -/
theorem C7_wechat_token (ctx : GroupCtx) (c : Wechat.Conf) (env : Wechat.Env)
    (st : Wechat.State) (key : String)
    (hkey : ctx.groupKey = some key) (hclient : env.clientOk = true)
    (htok : st.accessToken ≠ "") (hfresh : env.now - st.accessTokenAt ≤ 7200)
    (hrender : ∀ nm, (env.execText nm).2 = none) (hencode : env.encodeOk = true) :
    (∀ emsg, env.sendPost = .ok ⟨true, 200, some (0, emsg)⟩ →
      Wechat.notify ctx c env st = ⟨st, false, 1, false, none⟩) ∧
    (∀ emsg, env.sendPost = .ok ⟨true, 200, some (42001, emsg)⟩ →
      Wechat.notify ctx c env st =
        ⟨{ st with accessToken := "" }, false, 1, true, some (.simple emsg)⟩) ∧
    (∀ status body, status ≠ 200 → env.sendPost = .ok ⟨true, status, body⟩ →
      Wechat.notify ctx c env st =
        ⟨st, false, 1, true, some (.simple ("unexpected status code " ++ toString status))⟩) ∧
    (∀ st2 : Wechat.State, st2.accessToken = "" →
      (Wechat.notify ctx c env st2).didGetToken = true) := by
  have hcond : ¬ (st.accessToken = "" ∨ env.now - st.accessTokenAt > 7200) := by
    push_neg
    exact ⟨htok, by omega⟩
  have hmain : Wechat.notify ctx c env st = Wechat.sendPhase c env st false 0 := by
    unfold Wechat.notify
    rw [hkey, hclient]
    simp only [Bool.not_true, Bool.false_eq_true, if_false, if_neg hcond]
  refine ⟨?_, ?_, ?_, ?_⟩
  · intro emsg hsend
    rw [hmain, sendPhase_renderOk c env st false 0 hrender hencode, hsend]
    rfl
  · intro emsg hsend
    rw [hmain, sendPhase_renderOk c env st false 0 hrender hencode, hsend]
    rfl
  · intro status body h200 hsend
    rw [hmain, sendPhase_renderOk c env st false 0 hrender hencode, hsend]
    simp [h200]
  · intro st2 hst2
    have hsec : env.execText c.apiSecret = ((env.execText c.apiSecret).1, none) :=
      Prod.ext rfl (hrender c.apiSecret)
    have hcorp : env.execText c.corpID = ((env.execText c.corpID).1, none) :=
      Prod.ext rfl (hrender c.corpID)
    unfold Wechat.notify
    rw [hkey, hclient]
    simp only [Bool.not_true, Bool.false_eq_true, if_false, if_pos (Or.inl hst2),
      tmplText_none]
    rw [hsec]
    simp only [tmplText_none]
    rw [hcorp]
    cases env.tokenPost with
    | error e => rfl
    | ok t =>
      cases t with
      | none => rfl
      | some tok =>
        by_cases ht : tok = ""
        · simp [ht]
        · simp [ht, sendPhase_didGetToken]

/-- C7 witness: a cached token, a 200 response with body code 42001 —
the token is cleared and the call retries; the follow-up call with the
emptied cache performs the gettoken GET. -/
theorem C7_wechat_token_witness :
    Wechat.notify ⟨some "g"⟩ ⟨"sec", "corp", "m", "u", "p", "t", "a"⟩
      { now := 100, execText := fun nm => (nm, none), clientOk := true, encodeOk := true,
        tokenPost := .ok (some "tok"),
        sendPost := .ok ⟨true, 200, some (42001, "token expired")⟩ }
      ⟨"cached", 50⟩ =
      ⟨⟨"", 50⟩, false, 1, true, some (.simple "token expired")⟩ ∧
    (Wechat.notify ⟨some "g"⟩ ⟨"sec", "corp", "m", "u", "p", "t", "a"⟩
      { now := 100, execText := fun nm => (nm, none), clientOk := true, encodeOk := true,
        tokenPost := .ok (some "tok"),
        sendPost := .ok ⟨true, 200, some (42001, "token expired")⟩ }
      ⟨"", 50⟩).didGetToken = true := by
  have h := C7_wechat_token ⟨some "g"⟩ ⟨"sec", "corp", "m", "u", "p", "t", "a"⟩
    { now := 100, execText := fun nm => (nm, none), clientOk := true, encodeOk := true,
      tokenPost := .ok (some "tok"),
      sendPost := .ok ⟨true, 200, some (42001, "token expired")⟩ }
    ⟨"cached", 50⟩ "g" rfl rfl (by decide) (by decide) (fun _ => rfl) rfl
  exact ⟨h.2.1 "token expired" rfl, h.2.2.2 ⟨"", 50⟩ rfl⟩

theorem afterPost_calls (cls : Nat → Bool × Option String) (status : Nat) :
    (afterPost cls status).httpCalls = 1 := by
  unfold afterPost
  rcases cls status with ⟨r, e⟩
  rfl

/-- C8 counterexample: the webhook integration, handed a context with no
group key and an otherwise healthy environment, performs one HTTP
request and returns success — it neither fails nor refrains from the
request, so the claim that every integration fails fast with a
non-retryable error and no HTTP request is false. -/
theorem C8_webhook_sends_without_group_key :
    Webhook.notify ⟨none⟩
      { execText := fun nm => (nm, none), execHTML := fun nm => (nm, none),
        encodeOk := true, clientOk := true, post := .ok 200 } =
      ⟨1, false, none⟩ := by
  decide

/-- C8 amended: PagerDuty, OpsGenie, Pushover and WeChat return a
non-retryable group-key-missing error without any HTTP request;
VictorOps also refrains from the POST but reports the error as
retryable; the webhook only logs the missing key and proceeds to send
whenever encoding and client construction succeed. -/
theorem C8_missing_group_key (ctx : GroupCtx) (hctx : ctx.groupKey = none)
    (cpd : PagerDuty.Conf) (cog : OpsGenie.Conf) (cpo : Pushover.Conf)
    (cwc : Wechat.Conf) (cvo : VictorOps.Conf) (st : Wechat.State)
    (env : NotifyEnv) (wenv : Wechat.Env)
    (trigger resolved firing : Bool) :
    (PagerDuty.notify ctx cpd env trigger = ⟨0, false, some (.simple "group key missing")⟩) ∧
    (OpsGenie.notify ctx cog env resolved = ⟨0, false, some (.simple "group key missing")⟩) ∧
    (Pushover.notify ctx cpo env = ⟨0, false, some (.simple "group key missing")⟩) ∧
    (Wechat.notify ctx cwc wenv st = ⟨st, false, 0, false, some (.simple "group key missing")⟩) ∧
    (env.clientOk = true →
      VictorOps.notify ctx cvo env firing = ⟨0, true, some (.simple "group key missing")⟩) ∧
    (env.encodeOk = true → env.clientOk = true → (Webhook.notify ctx env).httpCalls = 1) := by
  refine ⟨?_, ?_, ?_, ?_, ?_, ?_⟩
  · unfold PagerDuty.notify
    rw [hctx]
  · unfold OpsGenie.notify OpsGenie.createRequest
    rw [hctx]
  · unfold Pushover.notify
    rw [hctx]
  · unfold Wechat.notify
    rw [hctx]
  · intro hcl
    unfold VictorOps.notify
    rcases hrk : env.execText cvo.routingKey with ⟨s0, e0⟩
    rw [tmplText_none, hrk, hcl]
    unfold VictorOps.createPayload
    rw [hctx]
    rfl
  · intro henc hcl
    unfold Webhook.notify
    rw [henc, hcl]
    cases env.post with
    | error e => rfl
    | ok status => simpa using afterPost_calls webhookRetry status

/-- C8 amended witness: concrete keyless invocations of each provider. -/
theorem C8_missing_group_key_witness :
    PagerDuty.notify ⟨none⟩ ⟨"sk", "rk", "d", "c", "cu", "sev", "cl", "co", "gr", [], []⟩
      { execText := fun nm => (nm, none), execHTML := fun nm => (nm, none),
        encodeOk := true, clientOk := true, post := .ok 200 } true =
      ⟨0, false, some (.simple "group key missing")⟩ ∧
    VictorOps.notify ⟨none⟩ ⟨"rk", "mt", "sm", "edn", "mtool", []⟩
      { execText := fun nm => (nm, none), execHTML := fun nm => (nm, none),
        encodeOk := true, clientOk := true, post := .ok 200 } true =
      ⟨0, true, some (.simple "group key missing")⟩ ∧
    (Webhook.notify ⟨none⟩
      { execText := fun nm => (nm, none), execHTML := fun nm => (nm, none),
        encodeOk := true, clientOk := true, post := .ok 200 }).httpCalls = 1 := by
  have h := C8_missing_group_key ⟨none⟩ rfl
    ⟨"sk", "rk", "d", "c", "cu", "sev", "cl", "co", "gr", [], []⟩
    ⟨"m", "d", "s", "t", "tg", "n", "p", "k", []⟩
    ⟨"t", "u", "ti", "m", "url", "ut", "pr", "snd", false⟩
    ⟨"sec", "corp", "m", "u", "p", "t", "a"⟩
    ⟨"rk", "mt", "sm", "edn", "mtool", []⟩
    ⟨"tok", 0⟩
    { execText := fun nm => (nm, none), execHTML := fun nm => (nm, none),
      encodeOk := true, clientOk := true, post := .ok 200 }
    { now := 0, execText := fun nm => (nm, none), clientOk := true, encodeOk := true,
      tokenPost := .ok (some "t"), sendPost := .ok ⟨true, 200, some (0, "")⟩ }
    true true true
  exact ⟨h.1, h.2.2.2.2.1 rfl, h.2.2.2.2.2 rfl rfl⟩

/-- C9 counterexample: a webhook transport failure whose error is a
url.Error carrying the request URL (with an embedded secret) is surfaced
with the URL intact — not replaced by the redaction marker — so the
claim that every integration redacts such URLs is false. -/
theorem C9_webhook_error_not_redacted :
    (Webhook.notify ⟨some "g"⟩
      { execText := fun nm => (nm, none), execHTML := fun nm => (nm, none),
        encodeOk := true, clientOk := true,
        post := .error (.urlError "http://example.com/hook?token=secret" "connection refused") }).err =
      some (.urlError "http://example.com/hook?token=secret" "connection refused") ∧
    redactURL (.urlError "http://example.com/hook?token=secret" "connection refused") =
      .urlError "<redacted>" "connection refused" := by
  decide

/-- C9 amended: redactURL replaces the URL of a url.Error with the
redaction marker and leaves every other error untouched; the Slack,
Hipchat, Pushover, VictorOps and WeChat integrations surface transport
failures through redactURL, while the Webhook, PagerDuty and OpsGenie
integrations surface the transport error unchanged. -/
theorem C9_transport_redaction (ctx : GroupCtx) (key : String)
    (hkey : ctx.groupKey = some key) (env : NotifyEnv) (e : GoErr)
    (hrender : ∀ nm, (env.execText nm).2 = none)
    (hrenderH : ∀ nm, (env.execHTML nm).2 = none)
    (henc : env.encodeOk = true) (hcl : env.clientOk = true)
    (hpost : env.post = .error e)
    (csl : Slack.Conf) (chc : Hipchat.Conf) (cpo : Pushover.Conf) (cvo : VictorOps.Conf)
    (cpd : PagerDuty.Conf) (cog : OpsGenie.Conf)
    (cwc : Wechat.Conf) (wenv : Wechat.Env) (st : Wechat.State) (e2 : GoErr)
    (hwr : ∀ nm, (wenv.execText nm).2 = none) (hwenc : wenv.encodeOk = true)
    (hwsend : wenv.sendPost = .error e2)
    (firing trigger resolved : Bool) :
    (∀ u m, redactURL (.urlError u m) = .urlError "<redacted>" m) ∧
    (∀ m, redactURL (.simple m) = .simple m) ∧
    Slack.notify csl env = ⟨1, true, some (redactURL e)⟩ ∧
    Hipchat.notify chc env = ⟨1, true, some (redactURL e)⟩ ∧
    Pushover.notify ctx cpo env = ⟨1, true, some (redactURL e)⟩ ∧
    VictorOps.notify ctx cvo env firing = ⟨1, true, some (redactURL e)⟩ ∧
    (wenv.clientOk = true → st.accessToken ≠ "" → wenv.now - st.accessTokenAt ≤ 7200 →
      Wechat.notify ctx cwc wenv st = ⟨st, false, 1, true, some (redactURL e2)⟩) ∧
    Webhook.notify ctx env = ⟨1, true, some e⟩ ∧
    PagerDuty.notifyV1 cpd env trigger = ⟨1, true, some e⟩ ∧
    PagerDuty.notifyV2 cpd env = ⟨1, true, some e⟩ ∧
    OpsGenie.notify ctx cog env resolved = ⟨1, true, some e⟩ := by
  refine ⟨fun u m => rfl, fun m => rfl, ?_, ?_, ?_, ?_, ?_, ?_, ?_, ?_, ?_⟩
  · unfold Slack.notify
    rw [renderSeq_all_ok env.execText _ (fun nm _ => hrender nm), henc, hcl, hpost]
    rfl
  · unfold Hipchat.notify
    cases hfmt : chc.messageFormatHTML
    · simp only [tmplText_ok env.execText chc.roomID (hrender _), hfmt, Bool.false_eq_true,
        if_false, tmplText_ok env.execText chc.message (hrender _),
        tmplText_ok env.execText chc.from_ (hrender _),
        tmplText_ok env.execText chc.color (hrender _), henc, hcl, hpost]
      rfl
    · simp only [tmplText_ok env.execText chc.roomID (hrender _), hfmt, if_true,
        tmplHTML_ok env.execHTML chc.message (hrenderH _),
        tmplText_ok env.execText chc.from_ (hrender _),
        tmplText_ok env.execText chc.color (hrender _), henc, hcl, hpost]
      rfl
  · unfold Pushover.notify
    rw [hkey]
    rcases htr1 : truncateStr (env.execText cpo.title).1 250 with ⟨t1, b1⟩
    cases hhtml : cpo.html
    · rcases htr2 : truncateStr (env.execText cpo.message).1 1024 with ⟨m1, b2⟩
      rcases htr3 : truncateStr (env.execText cpo.url).1 512 with ⟨u1, b3⟩
      simp only [tmplText_ok env.execText cpo.token (hrender _),
        tmplText_ok env.execText cpo.userKey (hrender _),
        tmplText_ok env.execText cpo.title (hrender _), htr1, hhtml, Bool.false_eq_true,
        if_false, tmplText_ok env.execText cpo.message (hrender _), htr2,
        tmplText_ok env.execText cpo.url (hrender _), htr3,
        tmplText_ok env.execText cpo.urlTitle (hrender _),
        tmplText_ok env.execText cpo.priority (hrender _),
        tmplText_ok env.execText cpo.sound (hrender _), hcl, hpost]
      rfl
    · rcases htr2 : truncateStr (env.execHTML cpo.message).1 1024 with ⟨m1, b2⟩
      rcases htr3 : truncateStr (env.execText cpo.url).1 512 with ⟨u1, b3⟩
      simp only [tmplText_ok env.execText cpo.token (hrender _),
        tmplText_ok env.execText cpo.userKey (hrender _),
        tmplText_ok env.execText cpo.title (hrender _), htr1, hhtml, if_true,
        tmplHTML_ok env.execHTML cpo.message (hrenderH _), htr2,
        tmplText_ok env.execText cpo.url (hrender _), htr3,
        tmplText_ok env.execText cpo.urlTitle (hrender _),
        tmplText_ok env.execText cpo.priority (hrender _),
        tmplText_ok env.execText cpo.sound (hrender _), hcl, hpost]
      rfl
  · unfold VictorOps.notify VictorOps.createPayload
    rw [hkey]
    rcases hrk : env.execText cvo.routingKey with ⟨s0, e0⟩
    rcases htr : truncateStr (env.execText cvo.stateMessage).1 20480 with ⟨sm1, b1⟩
    simp only [tmplText_none, hrk, hcl,
      tmplText_ok env.execText cvo.messageType (hrender _),
      tmplText_ok env.execText cvo.stateMessage (hrender _), htr,
      tmplText_ok env.execText cvo.entityDisplayName (hrender _),
      tmplText_ok env.execText cvo.monitoringTool (hrender _),
      renderSeq_all_ok env.execText _ (fun nm _ => hrender nm), henc, hpost]
    rfl
  · intro hwcl htok hfresh
    have hcond : ¬ (st.accessToken = "" ∨ wenv.now - st.accessTokenAt > 7200) := by
      push_neg
      exact ⟨htok, by omega⟩
    unfold Wechat.notify
    rw [hkey, hwcl]
    simp only [Bool.not_true, Bool.false_eq_true, if_false, if_neg hcond]
    rw [sendPhase_renderOk cwc wenv st false 0 hwr hwenc, hwsend]
  · unfold Webhook.notify
    rw [henc, hcl, hpost]
    rfl
  · unfold PagerDuty.notifyV1
    dsimp only
    rw [renderSeq_all_ok env.execText _ (fun nm _ => hrender nm), henc, hpost]
    rfl
  · unfold PagerDuty.notifyV2
    dsimp only
    rcases htr : (env.execText cpd.description).1.toList with _ | _
    all_goals
      simp only [tmplText_ok env.execText cpd.description (hrender _),
        renderSeq_all_ok env.execText _ (fun nm _ => hrender nm), henc, hpost]
    all_goals rfl
  · unfold OpsGenie.notify OpsGenie.createRequest
    rw [hkey]
    dsimp only
    simp only [renderSeq_all_ok env.execText _ (fun nm _ => hrender nm), henc, hcl, hpost]
    rfl

/-- C9 amended witness: a concrete transport failure carrying a URL is
redacted by Slack and by the WeChat send leg, and surfaced intact by the
webhook. -/
theorem C9_transport_redaction_witness :
    Slack.notify ⟨"a", "a", "a", "a", "a", "a", "a", "a", "a", "a", [], [], "a", "a", "a", "a"⟩
      { execText := fun nm => (nm, none), execHTML := fun nm => (nm, none),
        encodeOk := true, clientOk := true,
        post := .error (.urlError "http://x/?a=b" "refused") } =
      ⟨1, true, some (.urlError "<redacted>" "refused")⟩ ∧
    Wechat.notify ⟨some "g"⟩ ⟨"sec", "corp", "m", "u", "p", "t", "a"⟩
      { now := 0, execText := fun nm => (nm, none), clientOk := true, encodeOk := true,
        tokenPost := .ok (some "t"),
        sendPost := .error (.urlError "http://wx/?access_token=s" "reset") }
      ⟨"tok", 0⟩ =
      ⟨⟨"tok", 0⟩, false, 1, true, some (.urlError "<redacted>" "reset")⟩ ∧
    Webhook.notify ⟨some "g"⟩
      { execText := fun nm => (nm, none), execHTML := fun nm => (nm, none),
        encodeOk := true, clientOk := true,
        post := .error (.urlError "http://x/?a=b" "refused") } =
      ⟨1, true, some (.urlError "http://x/?a=b" "refused")⟩ := by
  have h := C9_transport_redaction ⟨some "g"⟩ "g" rfl
    { execText := fun nm => (nm, none), execHTML := fun nm => (nm, none),
      encodeOk := true, clientOk := true,
      post := .error (.urlError "http://x/?a=b" "refused") }
    (.urlError "http://x/?a=b" "refused")
    (fun _ => rfl) (fun _ => rfl) rfl rfl rfl
    ⟨"a", "a", "a", "a", "a", "a", "a", "a", "a", "a", [], [], "a", "a", "a", "a"⟩
    ⟨"r", "m", "f", "c", false⟩
    ⟨"t", "u", "ti", "m", "url", "ut", "pr", "snd", false⟩
    ⟨"rk", "mt", "sm", "edn", "mtool", []⟩
    ⟨"sk", "rk", "d", "c", "cu", "sev", "cl", "co", "gr", [], []⟩
    ⟨"m", "d", "s", "t", "tg", "n", "p", "k", []⟩
    ⟨"sec", "corp", "m", "u", "p", "t", "a"⟩
    { now := 0, execText := fun nm => (nm, none), clientOk := true, encodeOk := true,
      tokenPost := .ok (some "t"),
      sendPost := .error (.urlError "http://wx/?access_token=s" "reset") }
    ⟨"tok", 0⟩ (.urlError "http://wx/?access_token=s" "reset")
    (fun _ => rfl) rfl rfl true true true
  refine ⟨?_, ?_, h.2.2.2.2.2.2.2.1⟩
  · simpa [redactURL] using h.2.2.1
  · simpa [redactURL] using h.2.2.2.2.2.2.1 rfl (by decide) (by decide)

/-- C1: evaluating the cited setConfig on a deactivated config for a
running tenant: the engine is stopped and removed, but control falls
through and — the config text still parsing — a brand-new engine is
created and inserted, so an engine is running when setConfig returns;
the later version of the reconciler in this repository instead removes
the engine and returns at once, both for a deactivated and for a
deleted config (the cited version's config type has no deleted-at field
at all). -/
theorem C1_deactivated_engine_recreated :
    (lookupA (setConfig (fun _ => true)
        { cfgs := [("u", ⟨"global:", [], 1, 0⟩)], engines := [("u", ⟨0, 1⟩)],
          disk := [], nextEngineID := 1, configsUpdatedAtUnix := 1 }
        "u" ⟨"global:", [], 2, 5⟩).1.engines "u" = some ⟨1, 1⟩) ∧
    (lookupA (setConfigV2 (fun _ => true)
        { cfgs := [("u", ⟨"u", "global:", [], 1, 0, 0⟩)], engines := [("u", ⟨0, 1⟩)],
          disk := [], nextEngineID := 1, configsUpdatedAtUnix := 1 }
        "u" ⟨"u", "global:", [], 2, 5, 0⟩).1.engines "u" = none) ∧
    (lookupA (setConfigV2 (fun _ => true)
        { cfgs := [("u", ⟨"u", "global:", [], 1, 0, 0⟩)], engines := [("u", ⟨0, 1⟩)],
          disk := [], nextEngineID := 1, configsUpdatedAtUnix := 1 }
        "u" ⟨"u", "global:", [], 2, 0, 7⟩).1.engines "u" = none) := by
  decide

/-- C5: applying the identical config twice through the cited setConfig
— starting from an empty manager — creates one engine whose ApplyConfig
has then run twice (once at creation, once again on the second call,
because the cfgs cache is never written and the cached text compares as
empty), and leaves no cached config; the later version of the
reconciler applies exactly once and caches the config. -/
theorem C5_second_apply_not_noop :
    (lookupA (setConfig (fun _ => true)
        (setConfig (fun _ => true)
          { cfgs := [], engines := [], disk := [], nextEngineID := 0, configsUpdatedAtUnix := 0 }
          "u" ⟨"cfg", [], 1, 0⟩).1
        "u" ⟨"cfg", [], 1, 0⟩).1.engines "u" = some ⟨0, 2⟩) ∧
    (lookupA (setConfig (fun _ => true)
        (setConfig (fun _ => true)
          { cfgs := [], engines := [], disk := [], nextEngineID := 0, configsUpdatedAtUnix := 0 }
          "u" ⟨"cfg", [], 1, 0⟩).1
        "u" ⟨"cfg", [], 1, 0⟩).1.cfgs "u" = none) ∧
    (lookupA (setConfigV2 (fun _ => true)
        (setConfigV2 (fun _ => true)
          { cfgs := [], engines := [], disk := [], nextEngineID := 0, configsUpdatedAtUnix := 0 }
          "u" ⟨"u", "cfg", [], 1, 0, 0⟩).1
        "u" ⟨"u", "cfg", [], 1, 0, 0⟩).1.engines "u" = some ⟨0, 1⟩) ∧
    (lookupA (setConfigV2 (fun _ => true)
        (setConfigV2 (fun _ => true)
          { cfgs := [], engines := [], disk := [], nextEngineID := 0, configsUpdatedAtUnix := 0 }
          "u" ⟨"u", "cfg", [], 1, 0, 0⟩).1
        "u" ⟨"u", "cfg", [], 1, 0, 0⟩).1.cfgs "u" = some ⟨"u", "cfg", [], 1, 0, 0⟩) := by
  decide

/-- C6 counterexample: on a freshly constructed engine both handles are
nil; ApplyConfig forwards them to the external Stop implementations with
no guard of its own, so with a callee that dereferences its receiver the
very first ApplyConfig faults instead of completing. -/
theorem C6_first_apply_faults_unguarded :
    applyConfig
      { fromGlobsOk := true, apiV1Ok := true, apiV2Ok := true,
        stopInhibitor := derefStop, stopDispatcher := derefStop,
        freshInhibitor := 1, freshDispatcher := 2 } newEngineHandles =
      .error "nil pointer dereference" := rfl

/-- C6 amended: ApplyConfig contains no guard around the two Stop
calls: on a fresh engine it hands the nil handles straight to the
callees, completing (and installing the fresh inhibitor and dispatcher)
exactly when both external Stop implementations tolerate a nil
receiver, and faulting with the callee's fault otherwise. -/
theorem C6_stop_unguarded (env : ApplyEnv)
    (hg : env.fromGlobsOk = true) (h1 : env.apiV1Ok = true) (h2 : env.apiV2Ok = true) :
    (env.stopInhibitor none = .ok () → env.stopDispatcher none = .ok () →
      applyConfig env newEngineHandles =
        .ok ⟨some env.freshInhibitor, some env.freshDispatcher⟩) ∧
    (∀ emsg, env.stopInhibitor none = .error emsg →
      applyConfig env newEngineHandles = .error emsg) ∧
    (∀ emsg, env.stopInhibitor none = .ok () → env.stopDispatcher none = .error emsg →
      applyConfig env newEngineHandles = .error emsg) := by
  have hred : applyConfig env newEngineHandles =
      (match env.stopInhibitor none with
       | .error e => .error e
       | .ok _ =>
         match env.stopDispatcher none with
         | .error e => .error e
         | .ok _ => .ok ⟨some env.freshInhibitor, some env.freshDispatcher⟩) := by
    unfold applyConfig newEngineHandles
    simp only [hg, h1, h2, Bool.not_true, Bool.false_eq_true, if_false]
  exact ⟨fun hi hd => by rw [hred, hi, hd],
    fun emsg hi => by rw [hred, hi],
    fun emsg hi hd => by rw [hred, hi, hd]⟩

/-- C6 amended witness: with nil-tolerant callees — as the pinned
prometheus/alertmanager dependency provides — the first ApplyConfig
completes and installs the fresh handles. -/
theorem C6_stop_unguarded_witness :
    applyConfig
      { fromGlobsOk := true, apiV1Ok := true, apiV2Ok := true,
        stopInhibitor := nilSafeStop, stopDispatcher := nilSafeStop,
        freshInhibitor := 3, freshDispatcher := 4 } newEngineHandles =
      .ok ⟨some 3, some 4⟩ :=
  (C6_stop_unguarded
    { fromGlobsOk := true, apiV1Ok := true, apiV2Ok := true,
      stopInhibitor := nilSafeStop, stopDispatcher := nilSafeStop,
      freshInhibitor := 3, freshDispatcher := 4 } rfl rfl rfl).1 rfl rfl

end AM

